import Mathlib

set_option maxHeartbeats 1000000

/-!
Shallow embedding of `src/keyexpr.rs`, the key-expression layer of the
zenoh-c binding.

Modelling conventions:
* byte strings crossing the C boundary are `List Nat` (each entry one byte);
  decoded UTF-8 text is a `List Nat` of Unicode code points;
* the Rust `Option<KeyExpr>` living behind `z_owned_keyexpr_t` and
  `z_keyexpr_t` is `Option KeyExpr` (`none` is the absent / null state);
* a Rust panic (e.g. `Option::unwrap` on `None`) is modelled as the `none`
  result of an `Option`-returning embedding of the function;
* the session collaborator is a record of its `declare_keyexpr` / `undeclare`
  entry points; functions that may consult the session also return the number
  of session calls they performed, so ordering/no-retry facts are statable.

The grammar, canonicalizer, matching engine and composer live in the `zenoh`
crate, outside this repository's sources; those definitions are modelled from
the spec (each marked `Modelled from the spec:`).  Everything under the
`z_...` names is translated directly from `src/keyexpr.rs`.
-/

/-- Is `b` a UTF-8 continuation byte (`0x80..0xBF`)? -/
def contByte (b : Nat) : Bool := 128 ≤ b && b < 192

/-- UTF-8 decoding of a byte list into code points, faithful to Rust's
`std::str::from_utf8`: rejects overlong encodings, surrogates and
code points above `U+10FFFF`; `none` on any invalid byte sequence. -/
def utf8Decode : List Nat → Option (List Nat)
  | [] => some []
  | b :: rest =>
    if b < 128 then
      (utf8Decode rest).map (b :: ·)
    else if b < 194 then none
    else if b < 224 then
      match rest with
      | b1 :: rest1 =>
        if contByte b1 then
          (utf8Decode rest1).map (((b - 192) * 64 + (b1 - 128)) :: ·)
        else none
      | [] => none
    else if b < 240 then
      match rest with
      | b1 :: b2 :: rest2 =>
        if (if b == 224 then decide (160 ≤ b1) && decide (b1 < 192)
            else if b == 237 then decide (128 ≤ b1) && decide (b1 < 160)
            else contByte b1) && contByte b2 then
          (utf8Decode rest2).map
            (((b - 224) * 4096 + (b1 - 128) * 64 + (b2 - 128)) :: ·)
        else none
      | _ => none
    else if b < 245 then
      match rest with
      | b1 :: b2 :: b3 :: rest3 =>
        if (if b == 240 then decide (144 ≤ b1) && decide (b1 < 192)
            else if b == 244 then decide (128 ≤ b1) && decide (b1 < 144)
            else contByte b1) && contByte b2 && contByte b3 then
          (utf8Decode rest3).map
            (((b - 240) * 262144 + (b1 - 128) * 4096 + (b2 - 128) * 64
              + (b3 - 128)) :: ·)
        else none
      | _ => none
    else none

/-- Split a code-point string into its `/`-delimited chunks (`/` is 47).
Doubled, leading or trailing separators produce empty chunks. -/
def splitChunks : List Nat → List (List Nat)
  | [] => [[]]
  | c :: rest =>
    let r := splitChunks rest
    if c == 47 then [] :: r
    else
      match r with
      | h :: t => (c :: h) :: t
      | [] => [[c]]

/-- Reassemble chunks with a single `/` between consecutive chunks. -/
def joinChunks : List (List Nat) → List Nat
  | [] => []
  | [c] => c
  | c :: rest => c ++ 47 :: joinChunks rest

/-- Does the code-point list contain two adjacent `*` (42) characters? -/
def hasAdjStars : List Nat → Bool
  | a :: b :: t => (a == 42 && b == 42) || hasAdjStars (b :: t)
  | _ => false

/-- Modelled from the spec: a grammar-valid chunk is non-empty, and a chunk
containing `**` must be exactly the multi-level wildcard chunk `**`. -/
def chunkOk (c : List Nat) : Bool :=
  !c.isEmpty && (!hasAdjStars c || c == [42, 42])

/-- The characters `?` (63), `#` (35), `$` (36) are forbidden anywhere. -/
def forbiddenChar (c : Nat) : Bool := c == 63 || c == 35 || c == 36

/-- Modelled from the spec: grammar validity of a decoded key-expression
string (the `zenoh` crate's key-expression grammar, not in this repository's
sources): no forbidden character, and every `/`-delimited chunk is valid —
which also rules out `//`, a leading `/`, a trailing `/` and the empty
string, all of which produce an empty chunk. -/
def grammarValid (s : List Nat) : Bool :=
  !s.any forbiddenChar && (splitChunks s).all chunkOk

/-- Collapse runs of consecutive `**` chunks to a single `**` chunk. -/
def collapseDS : List (List Nat) → List (List Nat)
  | a :: b :: t =>
    if a == [42, 42] && b == [42, 42] then collapseDS (b :: t)
    else a :: collapseDS (b :: t)
  | x => x

/-- Modelled from the spec: canonicalization — the redundant-wildcard
collapse `**/**` → `**`, applied chunkwise. -/
def canonicalize (s : List Nat) : List Nat :=
  joinChunks (collapseDS (splitChunks s))

/-- A key expression: a canonical, grammar-valid code-point string.  Embeds
the `zenoh` crate's `KeyExpr`; its equality is string equality. -/
structure KeyExpr where
  chars : List Nat
  deriving DecidableEq

/-- Modelled from the spec: the validating constructor
(`KeyExpr::try_from` of the `zenoh` crate, not in this repository's
sources) — validate the grammar, then canonicalize; `none` on failure. -/
def keyexprParse (s : List Nat) : Option KeyExpr :=
  if grammarValid s then some ⟨canonicalize s⟩ else none

/-- Modelled from the spec: the chunk-level intersection automaton — a
literal chunk matches only an identical literal, `*` matches exactly one
chunk of any content, `**` matches zero or more chunks (tried on either
side, with backtracking). -/
def interChunks (a b : List (List Nat)) : Bool :=
  match a, b with
  | [], [] => true
  | [], bh :: bt => bh == [42, 42] && interChunks [] bt
  | ah :: ta, [] => ah == [42, 42] && interChunks ta []
  | ah :: ta, bh :: tb =>
    if ah == [42, 42] then interChunks ta (bh :: tb) || interChunks (ah :: ta) tb
    else if bh == [42, 42] then interChunks (ah :: ta) tb || interChunks ta (bh :: tb)
    else (ah == [42] || bh == [42] || ah == bh) && interChunks ta tb
termination_by a.length + b.length

/-- Modelled from the spec: the chunk-level inclusion automaton — `a`'s
wildcard power must dominate `b`'s at each aligned position: `a`'s `**`
consumes zero or more of `b`'s chunks, `a`'s `*` subsumes any single
non-`**` chunk of `b`, a literal subsumes only the identical literal, and
nothing but `**` subsumes `**`. -/
def inclChunks (a b : List (List Nat)) : Bool :=
  match a, b with
  | [], [] => true
  | [], _ :: _ => false
  | ah :: ta, [] => ah == [42, 42] && inclChunks ta []
  | ah :: ta, bh :: tb =>
    if ah == [42, 42] then inclChunks ta (bh :: tb) || inclChunks (ah :: ta) tb
    else if bh == [42, 42] then false
    else (ah == [42] || ah == bh) && inclChunks ta tb
termination_by a.length + b.length

/-- Modelled from the spec: `intersects` of the matching engine. -/
def KeyExpr.intersects (a b : KeyExpr) : Bool :=
  interChunks (splitChunks a.chars) (splitChunks b.chars)

/-- Modelled from the spec: `includes` of the matching engine. -/
def KeyExpr.includes (a b : KeyExpr) : Bool :=
  inclChunks (splitChunks a.chars) (splitChunks b.chars)

/-- Modelled from the spec: the `zenoh` crate's `KeyExpr::concat` — refuses
to concatenate a key expression ending with `*` to a suffix starting with
`*` (the forbidden wildcard adjacency), otherwise string-concatenates and
revalidates/canonicalizes. -/
def KeyExpr.concat (l : KeyExpr) (r : List Nat) : Option KeyExpr :=
  if l.chars.getLast? == some 42 && r.head? == some 42 then none
  else keyexprParse (l.chars ++ r)

/-- Modelled from the spec: the `zenoh` crate's `KeyExpr::join` — inserts
exactly one `/` separator between the operands, then
revalidates/canonicalizes. -/
def KeyExpr.join (l : KeyExpr) (r : List Nat) : Option KeyExpr :=
  keyexprParse (l.chars ++ 47 :: r)

/-- The session collaborator: its `declare_keyexpr` and `undeclare` entry
points, each an opaque request/response to the network layer. -/
structure Session where
  declareKE : KeyExpr → Except String KeyExpr
  undeclareKE : KeyExpr → Except String Unit

/-- `z_keyexpr_new`: decode the caller's bytes as UTF-8, then run the
validating constructor; any failure is logged and yields the absent
(null) state. -/
def z_keyexpr_new (name : List Nat) : Option KeyExpr :=
  match utf8Decode name with
  | some s => keyexprParse s
  | none => none

/-- `z_keyexpr_loan`: a borrowing clone of the owned wrapper's contents. -/
def z_keyexpr_loan (keyexpr : Option KeyExpr) : Option KeyExpr := keyexpr

/-- `z_keyexpr_drop`: `std::mem::drop(keyexpr.take())` — the wrapper becomes
absent, and the value's destructor runs once when a value was present.
Returns (new wrapper state, number of destructor runs). -/
def z_keyexpr_drop (keyexpr : Option KeyExpr) : Option KeyExpr × Nat :=
  (none, match keyexpr with | some _ => 1 | none => 0)

/-- `z_keyexpr_check`: `true` iff the owned wrapper holds a value. -/
def z_keyexpr_check (keyexpr : Option KeyExpr) : Bool := keyexpr.isSome

/-- `z_loaned_keyexpr_check`: `true` iff the loaned view holds a value. -/
def z_loaned_keyexpr_check (keyexpr : Option KeyExpr) : Bool := keyexpr.isSome

/-- `z_keyexpr_equals`: `*left == *right` — structural equality of the two
`Option<KeyExpr>` values (key-expression equality is string equality). -/
def z_keyexpr_equals (left right : Option KeyExpr) : Bool :=
  decide (left = right)

/-- `z_keyexpr_intersects`: delegate when both operands are present,
otherwise `false`. -/
def z_keyexpr_intersects (left right : Option KeyExpr) : Bool :=
  match left, right with
  | some l, some r => l.intersects r
  | _, _ => false

/-- `z_keyexpr_includes`: delegate when both operands are present,
otherwise `false`. -/
def z_keyexpr_includes (left right : Option KeyExpr) : Bool :=
  match left, right with
  | some l, some r => l.includes r
  | _, _ => false

/-- `z_keyexpr_concat`: absent left operand, a non-UTF-8 suffix, or a failed
composition each yield the absent state (errors are only logged). -/
def z_keyexpr_concat (left : Option KeyExpr) (right : List Nat) :
    Option KeyExpr :=
  match left with
  | none => none
  | some l =>
    match utf8Decode right with
    | none => none
    | some r => l.concat r

/-- `z_keyexpr_join`: absent left operand, a non-UTF-8 suffix, or a failed
composition each yield the absent state (errors are only logged). -/
def z_keyexpr_join (left : Option KeyExpr) (right : List Nat) :
    Option KeyExpr :=
  match left with
  | none => none
  | some l =>
    match utf8Decode right with
    | none => none
    | some r => l.join r

/-- `z_declare_keyexpr`: an absent key expression is rejected (with a logged
warning) before the session is looked at; an absent session or a session
error yields the absent state, the error merely logged.  The second
component counts the session `declare_keyexpr` calls performed. -/
def z_declare_keyexpr (session : Option Session) (keyexpr : Option KeyExpr) :
    Option KeyExpr × Nat :=
  match keyexpr with
  | none => (none, 0)
  | some ke =>
    match session with
    | some s =>
      match s.declareKE ke with
      | .ok kid => (some kid, 1)
      | .error _ => (none, 1)
    | none => (none, 0)

/-- `z_undeclare_keyexpr`: with a valid session the key expression is
`unwrap`ped — a panic (modelled as `none`) when it is absent; session
errors are only logged and the function returns unit either way; with an
absent session it logs and returns unit without touching the key
expression. -/
def z_undeclare_keyexpr (session : Option Session)
    (keyexpr : Option KeyExpr) : Option Unit :=
  match session with
  | some s =>
    match keyexpr with
    | some ke =>
      match s.undeclareKE ke with
      | .ok _ => some ()
      | .error _ => some ()
    | none => none
  | none => some ()

/-- A session whose network layer rejects every declaration: used as a
concrete collaborator instance. -/
def rejectingSession : Session :=
  { declareKE := fun _ => .error "session closed"
    undeclareKE := fun _ => .ok () }

/-- C1 counterexample: with a valid session, `z_undeclare_keyexpr` on an
absent owned key expression `unwrap`s a `None` — a panic (modelled `none`),
i.e. a crash, contradicting the claim that the call does not crash and is
reported to the caller. -/
theorem z_undeclare_keyexpr_absent_cex :
    z_undeclare_keyexpr (some rejectingSession) none = none := rfl

/-- C1 (amended): calling `z_undeclare_keyexpr` on an absent owned key
expression panics (crashes) when the session is valid; with an absent
session the call only logs and returns; and even on a present key
expression nothing is reported to the caller — the function returns unit
whether the session's undeclare succeeded or failed. -/
theorem z_undeclare_keyexpr_amended :
    (∀ s : Session, z_undeclare_keyexpr (some s) none = none)
    ∧ (∀ k : Option KeyExpr, z_undeclare_keyexpr none k = some ())
    ∧ (∀ (s : Session) (ke : KeyExpr),
        z_undeclare_keyexpr (some s) (some ke) = some ()) := by
  refine ⟨fun s => rfl, fun k => rfl, fun s ke => ?_⟩
  cases h : s.undeclareKE ke <;> simp [z_undeclare_keyexpr, h]

/-- C2: an absent operand in either position makes `z_keyexpr_intersects`
and `z_keyexpr_includes` return `false`; being total Lean functions they
never raise an error. -/
theorem matching_absent_operand :
    ∀ x : Option KeyExpr,
      z_keyexpr_intersects none x = false ∧ z_keyexpr_intersects x none = false
      ∧ z_keyexpr_includes none x = false ∧ z_keyexpr_includes x none = false := by
  intro x
  cases x <;> exact ⟨rfl, rfl, rfl, rfl⟩

/-- C3: for valid canonical key expressions (fixed points of the validating
constructor), `z_keyexpr_equals` is `true` exactly on identical canonical
strings, is reflexive, and is symmetric. -/
theorem z_keyexpr_equals_canonical :
    ∀ a b : KeyExpr, keyexprParse a.chars = some a → keyexprParse b.chars = some b →
      (z_keyexpr_equals (some a) (some b) = true ↔ a.chars = b.chars)
      ∧ z_keyexpr_equals (some a) (some a) = true
      ∧ z_keyexpr_equals (some a) (some b) = z_keyexpr_equals (some b) (some a) := by
  intro a b _ _
  refine ⟨?_, ?_, ?_⟩
  · simp only [z_keyexpr_equals, decide_eq_true_eq, Option.some.injEq]
    cases a; cases b; simp
  · simp [z_keyexpr_equals]
  · simp only [z_keyexpr_equals]
    exact decide_eq_decide.mpr ⟨fun h => h.symm, fun h => h.symm⟩

/-- C3 witness: instantiated at the canonical expressions for the strings
`a/b` and `a/c`. -/
theorem z_keyexpr_equals_canonical_witness :
    keyexprParse (KeyExpr.mk [97, 47, 98]).chars = some ⟨[97, 47, 98]⟩
    ∧ keyexprParse (KeyExpr.mk [97, 47, 99]).chars = some ⟨[97, 47, 99]⟩
    ∧ ((z_keyexpr_equals (some ⟨[97, 47, 98]⟩) (some ⟨[97, 47, 99]⟩) = true ↔
          (KeyExpr.mk [97, 47, 98]).chars = (KeyExpr.mk [97, 47, 99]).chars)
        ∧ z_keyexpr_equals (some ⟨[97, 47, 98]⟩) (some ⟨[97, 47, 98]⟩) = true
        ∧ z_keyexpr_equals (some ⟨[97, 47, 98]⟩) (some ⟨[97, 47, 99]⟩)
            = z_keyexpr_equals (some ⟨[97, 47, 99]⟩) (some ⟨[97, 47, 98]⟩)) :=
  ⟨by decide, by decide,
   z_keyexpr_equals_canonical ⟨[97, 47, 98]⟩ ⟨[97, 47, 99]⟩ (by decide) (by decide)⟩

/-- C4: an absent key-expression operand makes `z_declare_keyexpr` return
the absent state after zero session calls — the check precedes any session
interaction — and a session error is propagated as the absent state after
exactly one session call (no retry). -/
theorem z_declare_keyexpr_spec :
    (∀ session : Option Session, z_declare_keyexpr session none = (none, 0))
    ∧ (∀ (s : Session) (ke : KeyExpr) (e : String), s.declareKE ke = .error e →
        z_declare_keyexpr (some s) (some ke) = (none, 1)) := by
  refine ⟨fun session => rfl, fun s ke e h => ?_⟩
  simp [z_declare_keyexpr, h]

/-- C4 witness: instantiated at a session that rejects every declaration,
and the key expression `a/b`. -/
theorem z_declare_keyexpr_spec_witness :
    rejectingSession.declareKE ⟨[97, 47, 98]⟩ = .error "session closed"
    ∧ z_declare_keyexpr (some rejectingSession) (some ⟨[97, 47, 98]⟩) = (none, 1) :=
  ⟨rfl, z_declare_keyexpr_spec.2 rejectingSession ⟨[97, 47, 98]⟩ "session closed" rfl⟩

/-- C5: `z_keyexpr_concat` and `z_keyexpr_join` return the absent state
whenever the left operand is absent, whenever the suffix bytes are not
valid UTF-8, and whenever the composed string fails grammar validation. -/
theorem compose_failure_spec :
    (∀ r : List Nat, z_keyexpr_concat none r = none)
    ∧ (∀ r : List Nat, z_keyexpr_join none r = none)
    ∧ (∀ (l : KeyExpr) (r : List Nat), utf8Decode r = none →
        z_keyexpr_concat (some l) r = none)
    ∧ (∀ (l : KeyExpr) (r : List Nat), utf8Decode r = none →
        z_keyexpr_join (some l) r = none)
    ∧ (∀ (l : KeyExpr) (r s : List Nat), utf8Decode r = some s →
        grammarValid (l.chars ++ s) = false → z_keyexpr_concat (some l) r = none)
    ∧ (∀ (l : KeyExpr) (r s : List Nat), utf8Decode r = some s →
        grammarValid (l.chars ++ 47 :: s) = false → z_keyexpr_join (some l) r = none) := by
  refine ⟨fun r => rfl, fun r => rfl, ?_, ?_, ?_, ?_⟩
  · intro l r h; unfold z_keyexpr_concat; rw [h]
  · intro l r h; unfold z_keyexpr_join; rw [h]
  · intro l r s h hg
    unfold z_keyexpr_concat; rw [h]
    show l.concat s = none
    unfold KeyExpr.concat
    split
    · rfl
    · unfold keyexprParse; rw [hg]; simp
  · intro l r s h hg
    unfold z_keyexpr_join; rw [h]
    show l.join s = none
    unfold KeyExpr.join keyexprParse; rw [hg]; simp

/-- C5 witness: the byte `0xFF` is not UTF-8; appending `/` to `a` by
either operator yields a trailing separator, which fails the grammar. -/
theorem compose_failure_spec_witness :
    utf8Decode [255] = none
    ∧ z_keyexpr_concat (some ⟨[97]⟩) [255] = none
    ∧ z_keyexpr_join (some ⟨[97]⟩) [255] = none
    ∧ utf8Decode [47] = some [47]
    ∧ grammarValid ((KeyExpr.mk [97]).chars ++ [47]) = false
    ∧ z_keyexpr_concat (some ⟨[97]⟩) [47] = none
    ∧ grammarValid ((KeyExpr.mk [97]).chars ++ 47 :: [47]) = false
    ∧ z_keyexpr_join (some ⟨[97]⟩) [47] = none :=
  ⟨by decide, compose_failure_spec.2.2.1 ⟨[97]⟩ [255] (by decide),
   compose_failure_spec.2.2.2.1 ⟨[97]⟩ [255] (by decide),
   by decide, by decide,
   compose_failure_spec.2.2.2.2.1 ⟨[97]⟩ [47] [47] (by decide) (by decide),
   by decide,
   compose_failure_spec.2.2.2.2.2 ⟨[97]⟩ [47] [47] (by decide) (by decide)⟩

/-- C6: dropping an owned key expression runs the destructor exactly once
and leaves the wrapper absent; a second drop runs no destructor; and the
check reports `false` after the first drop. -/
theorem z_keyexpr_drop_double_safe :
    ∀ v : KeyExpr,
      z_keyexpr_drop (some v) = (none, 1)
      ∧ z_keyexpr_drop (z_keyexpr_drop (some v)).fst = (none, 0)
      ∧ z_keyexpr_check (z_keyexpr_drop (some v)).fst = false :=
  fun _ => ⟨rfl, rfl, rfl⟩

/-- C7 counterexample: with both operands absent (invalid),
`z_keyexpr_equals` returns `true`, so it is not the case that the algebra
functions only return `false` on invalid input. -/
theorem algebra_invalid_input_cex : z_keyexpr_equals none none = true := rfl

/-- C7 (amended): the three algebra functions are total (never fail);
`z_keyexpr_intersects` and `z_keyexpr_includes` return `false` whenever an
operand is absent; `z_keyexpr_equals` returns `false` when exactly one
operand is absent but `true` when both are absent. -/
theorem algebra_total_amended :
    (∀ x : Option KeyExpr,
       z_keyexpr_intersects none x = false ∧ z_keyexpr_intersects x none = false
       ∧ z_keyexpr_includes none x = false ∧ z_keyexpr_includes x none = false)
    ∧ (∀ k : KeyExpr,
       z_keyexpr_equals (some k) none = false ∧ z_keyexpr_equals none (some k) = false)
    ∧ z_keyexpr_equals none none = true := by
  refine ⟨fun x => ?_, fun k => ⟨rfl, rfl⟩, rfl⟩
  cases x <;> exact ⟨rfl, rfl, rfl, rfl⟩

/-- C8: `z_keyexpr_concat` rejects a left operand ending in `*` together
with a suffix starting with `*` (which covers a wildcard final chunk met by
a wildcard initial chunk); in particular concatenating `*` to `a/*` yields
the absent state. -/
theorem concat_wildcard_adjacency :
    (∀ (l : KeyExpr) (r s : List Nat), utf8Decode r = some s →
       l.chars.getLast? = some 42 → s.head? = some 42 →
       z_keyexpr_concat (some l) r = none)
    ∧ z_keyexpr_concat (some ⟨[97, 47, 42]⟩) [42] = none := by
  constructor
  · intro l r s h hl hs
    unfold z_keyexpr_concat; rw [h]
    show l.concat s = none
    unfold KeyExpr.concat
    rw [hl, hs]
    rfl
  · decide

/-- C8 witness: instantiated at `a/*` and the suffix `*`. -/
theorem concat_wildcard_adjacency_witness :
    utf8Decode [42] = some [42]
    ∧ (KeyExpr.mk [97, 47, 42]).chars.getLast? = some 42
    ∧ ([42] : List Nat).head? = some 42
    ∧ z_keyexpr_concat (some ⟨[97, 47, 42]⟩) [42] = none :=
  ⟨by decide, by decide, by decide,
   concat_wildcard_adjacency.1 ⟨[97, 47, 42]⟩ [42] [42] (by decide) (by decide) (by decide)⟩

/-- C9: `z_keyexpr_new` returns the absent state on every byte string that
is not valid UTF-8 and on every decoded string failing the grammar (being a
total Lean function it never crashes); in particular `a//b`, `/a/b`,
`a/b/` and `a#b` all fail validation. -/
theorem z_keyexpr_new_grammar :
    (∀ bs : List Nat, utf8Decode bs = none → z_keyexpr_new bs = none)
    ∧ (∀ bs s : List Nat, utf8Decode bs = some s → grammarValid s = false →
        z_keyexpr_new bs = none)
    ∧ z_keyexpr_new [97, 47, 47, 98] = none
    ∧ z_keyexpr_new [47, 97, 47, 98] = none
    ∧ z_keyexpr_new [97, 47, 98, 47] = none
    ∧ z_keyexpr_new [97, 35, 98] = none := by
  refine ⟨?_, ?_, by decide, by decide, by decide, by decide⟩
  · intro bs h; unfold z_keyexpr_new; rw [h]
  · intro bs s h hg
    unfold z_keyexpr_new; rw [h]
    show keyexprParse s = none
    unfold keyexprParse; rw [hg]; simp

/-- C9 witness: instantiated at the invalid byte `0xFF` and at the decoded
string `a#b`, which contains the forbidden character `#`. -/
theorem z_keyexpr_new_grammar_witness :
    utf8Decode [255] = none
    ∧ z_keyexpr_new [255] = none
    ∧ utf8Decode [97, 35, 98] = some [97, 35, 98]
    ∧ grammarValid [97, 35, 98] = false
    ∧ z_keyexpr_new [97, 35, 98] = none :=
  ⟨by decide, z_keyexpr_new_grammar.1 [255] (by decide), by decide, by decide,
   z_keyexpr_new_grammar.2.1 [97, 35, 98] [97, 35, 98] (by decide) (by decide)⟩

/-- C10: with both operands absent `z_keyexpr_equals` is `true` — unlike
`z_keyexpr_intersects` and `z_keyexpr_includes`, which are `false` on any
absent operand — because equality compares the underlying `Option`
values. -/
theorem equals_absent_agreement :
    z_keyexpr_equals none none = true
    ∧ (∀ x : Option KeyExpr,
        z_keyexpr_intersects none x = false ∧ z_keyexpr_intersects x none = false
        ∧ z_keyexpr_includes none x = false ∧ z_keyexpr_includes x none = false)
    ∧ (∀ left right : Option KeyExpr,
        z_keyexpr_equals left right = decide (left = right)) := by
  refine ⟨rfl, fun x => ?_, fun l r => rfl⟩
  cases x <;> exact ⟨rfl, rfl, rfl, rfl⟩
